import Mathlib

/-!
Shallow embedding of the message translation and edit-correlation core of
a Telegram-to-Zulip bridge bot (source file `zulip_bot.py`), together with
proofs about the specified behaviour.

The embedding covers:
* decimal rendering of numbers, modelling the numeric fields produced by
  CPython `strftime` (`%d`, `%H`, `%M`, zero padded to width two, and `%Y`);
* local calendar timestamps and the two format strings
  `date_fmt = "%d %B %Y"` and `time_fmt = "%H:%M"`;
* the request construction performed by `zulip_api_request` (topic choice,
  mention prefix, new-message body, quoted-reply body, attachment suffix);
* the dispatch tail of `zulip_api_request` (send vs update, the 60 minute
  edit window, the id-mapping database writes);
* the sqlite-backed id store (`db_add_id` / `db_find_id`, where the insert
  is `INSERT OR IGNORE` on the primary key `tid`);
* the Telegram-side handler `process_message` (mention resolution against
  the user-mapping dictionary, media dispatch, unsupported content).

External collaborators (the Zulip HTTP client, the Telegram file download)
are modelled by passing their results in as parameters.  Python exceptions
that escape the handler (`TypeError` from subscripting `None`, `KeyError`
from a dictionary miss) are modelled with `Except`.
-/

namespace ZulipBot

/-! ### Decimal rendering -/

/-- The ASCII digit character for a digit value below ten. -/
def digitChar (d : Nat) : Char := Char.ofNat (48 + d)

/-- Fuel-indexed big-endian decimal digit rendering. -/
def natStrAux : Nat → Nat → List Char
  | 0, _ => []
  | fuel + 1, n =>
      if n < 10 then [digitChar n]
      else natStrAux fuel (n / 10) ++ [digitChar (n % 10)]

/-- Decimal rendering of a natural number, as produced by `str` / `%Y`. -/
def natStr (n : Nat) : String := ⟨natStrAux (n + 1) n⟩

/-- Zero-padded two-digit rendering, as produced by `%d`, `%H`, `%M`. -/
def pad2 (n : Nat) : String := if n < 10 then ⟨'0' :: (natStr n).data⟩ else natStr n

/-- Reading a digit string back as a number; used to invert `natStr`. -/
def parseDigits (l : List Char) : Nat := l.foldl (fun acc c => acc * 10 + (c.toNat - 48)) 0

/-! ### Local calendar timestamps and strftime formats -/

/-- English month names as produced by the `%B` field of `strftime`. -/
def monthName : Nat → String
  | 1 => "January"
  | 2 => "February"
  | 3 => "March"
  | 4 => "April"
  | 5 => "May"
  | 6 => "June"
  | 7 => "July"
  | 8 => "August"
  | 9 => "September"
  | 10 => "October"
  | 11 => "November"
  | 12 => "December"
  | _ => ""

/-- A timestamp already converted to the configured local time zone
(the source calls `astimezone(local_tz)` on every datetime before it is
formatted), broken into the calendar fields that the used format strings
read. -/
structure LocalDT where
  year : Nat
  month : Nat
  day : Nat
  hour : Nat
  minute : Nat
deriving DecidableEq

/-- Rendering with `date_fmt = "%d %B %Y"`. -/
def strftimeDate (d : LocalDT) : String :=
  pad2 d.day ++ " " ++ monthName d.month ++ " " ++ natStr d.year

/-- Rendering with `time_fmt = "%H:%M"`. -/
def strftimeTime (d : LocalDT) : String :=
  pad2 d.hour ++ ":" ++ pad2 d.minute

/-- Day and month fields in the ranges a real calendar produces. -/
def validDate (d : LocalDT) : Prop :=
  1 ≤ d.day ∧ d.day ≤ 31 ∧ 1 ≤ d.month ∧ d.month ≤ 12

instance (d : LocalDT) : Decidable (validDate d) := by
  unfold validDate; infer_instance

/-- Two timestamps fall on the same local calendar date. -/
def sameDate (d1 d2 : LocalDT) : Prop :=
  d1.year = d2.year ∧ d1.month = d2.month ∧ d1.day = d2.day

instance (d1 d2 : LocalDT) : Decidable (sameDate d1 d2) := by
  unfold sameDate; infer_instance

/-- The `reply_date_print` expression of `zulip_api_request`: render the
replied-to timestamp as time only when its `date_fmt` rendering matches the
replying message's, otherwise as full date, comma, time. -/
def reply_date_print (reply_date date : LocalDT) : String :=
  if strftimeDate reply_date = strftimeDate date then strftimeTime reply_date
  else strftimeDate reply_date ++ ", " ++ strftimeTime reply_date

/-! ### Data model: Telegram messages, configuration, store, client results -/

/-- The slice of `telegram.User` the bot reads. -/
structure User where
  first_name : String
deriving DecidableEq

/-- The entity types the mention loop distinguishes. -/
inductive EntityType
  | text_mention
  | mention
  | other
deriving DecidableEq

/-- The slice of `telegram.MessageEntity` the bot reads.  `userFirstName`
models `entity.user.first_name`, which is only meaningful on a
`text_mention` entity. -/
structure MessageEntity where
  type : EntityType
  userFirstName : String
deriving DecidableEq

/-- The slice of a `telegram.Message` the bot reads.  A Python `datetime`
value is split into its local calendar fields (`date`, used for
formatting) and its absolute position in seconds (`dateEpoch`, used for
the edit-window comparison).  `text` and `caption` are `none` when the
attribute is `None`; each media attribute is `some file_id` when present
(Python truthiness of the attribute) and `none` otherwise. -/
structure MsgCore where
  message_id : Nat
  date : LocalDT
  dateEpoch : Int
  from_user : User
  text : Option String
  caption : Option String
  entities : List MessageEntity
  photo : Option String
  document : Option String
  video : Option String
  video_note : Option String
  audio : Option String
  voice : Option String
deriving DecidableEq

/-- The slice of a `telegram.Update` the handler reads.  `reply_to_message`
is the read-only snapshot of the replied-to message (structures cannot
nest, so it sits beside `message` rather than inside it). -/
structure TgUpdate where
  edited_message : Bool
  message : MsgCore
  reply_to_message : Option MsgCore

/-- The configuration values the core reads: stream, fixed topic, and the
flag `date_as_topic` (set when the configured topic is empty). -/
structure Config where
  stream : String
  topic : String
  date_as_topic : Bool

/-- Python truthiness of an optional string: `None` and `""` are falsy. -/
def pyTruthy (o : Option String) : Bool :=
  match o with
  | none => false
  | some s => !s.isEmpty

/-- Value of `x if x is not None else ""`. -/
def orEmpty (o : Option String) : String :=
  match o with
  | some s => s
  | none => ""

/-- The per-message expression `c.caption if c.caption else c.text` of the
reply branch, with the subsequent `None`-to-empty-string step. -/
def captionOrTextStr (m : MsgCore) : String :=
  orEmpty (if pyTruthy m.caption then m.caption else m.text)

/-- The mention-handling prelude of `zulip_api_request`: an empty (or
absent) mention list contributes nothing, a non-empty one contributes the
space-joined tokens followed by one space. -/
def joinMentions (mentions : List String) : String :=
  if mentions.isEmpty then "" else String.intercalate " " mentions ++ " "

/-- The `text` accumulation of the new-message branch:
`if caption: text += caption elif text: text += message.text`. -/
def newText (m : MsgCore) (t0 : String) : String :=
  if pyTruthy m.caption then t0 ++ orEmpty m.caption
  else if pyTruthy m.text then t0 ++ orEmpty m.text
  else t0

/-- The attachment suffix appended when `attachment_url is not None`. -/
def attSuffix (attachment_url : Option String) : String :=
  match attachment_url with
  | some u => "\n[Link to file](" ++ u ++ ")"
  | none => ""

/-- The request dict sent to the Zulip API.  The dict key `"to"` is a
Lean keyword, so the field is named `toStream`. -/
structure Request where
  type : String
  toStream : String
  topic : String
  content : String
deriving DecidableEq

/-- The request-construction part of `zulip_api_request`.  `content0` is
`content[0]` (the message being forwarded) and `content1` is `content[1]`
(the replied-to message, `None` for a new message); the source
distinguishes the two cases with `None in content`. -/
def buildRequest (cfg : Config) (content0 : MsgCore) (content1 : Option MsgCore)
    (attachment_url : Option String) (mentions : List String) : Request :=
  let date := content0.date
  let sender_name := content0.from_user.first_name
  let text0 := joinMentions mentions
  let base : String :=
    match content1 with
    | none =>
        "*" ++ content0.from_user.first_name ++ ":*\n" ++ newText content0 text0
    | some orig =>
        let rdp := reply_date_print orig.date date
        let reply_text := captionOrTextStr content0
        let original_text := captionOrTextStr orig
        "> *" ++ orig.from_user.first_name ++ " wrote (" ++ rdp ++ "):*\n> "
          ++ original_text ++ "\n\n*" ++ sender_name ++ ":*\n" ++ (text0 ++ reply_text)
  { type := "stream"
    toStream := cfg.stream
    topic := if cfg.date_as_topic then strftimeDate date else cfg.topic
    content := base ++ attSuffix attachment_url }

/-! ### Identifier store (sqlite table `messages (tid INTEGER PRIMARY KEY, zid INTEGER)`) -/

/-- The persisted table, as a list of `(tid, zid)` rows in insertion
order. -/
structure DB where
  rows : List (Nat × Nat)
deriving DecidableEq

/-- `SELECT zid FROM messages WHERE tid=?` with `fetchone`: the first
matching row, or `None`. -/
def db_find_id (db : DB) (tid : Nat) : Option Nat :=
  (db.rows.find? (fun r => r.1 == tid)).map (fun r => r.2)

/-- `INSERT OR IGNORE INTO messages VALUES (?, ?)`: a row is appended
unless one with the same primary key `tid` already exists, in which case
the statement is a no-op (and not an error). -/
def db_add_id (db : DB) (tid zid : Nat) : DB :=
  if (db.rows.find? (fun r => r.1 == tid)).isSome then db else ⟨db.rows ++ [(tid, zid)]⟩

/-- Number of rows carrying a given primary key. -/
def rowCount (db : DB) (tid : Nat) : Nat :=
  (db.rows.filter (fun r => r.1 == tid)).length

/-! ### Dispatch tail of zulip_api_request -/

/-- The structured result the Zulip client returns for `send_message` and
`update_message`; `id` is the created message id, read only after a
successful send. -/
structure SendResult where
  result : String
  id : Nat
  code : String
  msg : String
deriving DecidableEq

/-- Python exceptions that can escape the handler. -/
inductive PyError
  | typeError
  | keyError (key : String)
deriving DecidableEq

/-- A call issued to the Zulip client. -/
inductive ZulipCall
  | send (request : Request)
  | update (message_id : Nat) (content : String)
deriving DecidableEq

/-- `check_response`: success flag plus the error log line produced on a
non-success result. -/
def check_response (result : SendResult) : Bool × List String :=
  if result.result ≠ "success" then
    (false, ["Zulip API returned " ++ result.code ++ ": " ++ result.msg])
  else (true, [])

/-- Zulip only allows edits of messages younger than 60 minutes. -/
def _60min_delta : Int := 3600

/-- The edit-window condition `(date + _60min_delta) >= now` of the edit
branch. -/
def can_edit (t now : Int) : Bool := decide (t + _60min_delta ≥ now)

/-- What one run of `zulip_api_request` did: the Zulip client calls it
issued, the database state it left behind, and the log lines it wrote. -/
structure ZulipOutcome where
  calls : List ZulipCall
  db : DB
  logs : List String
deriving DecidableEq

/-- The dispatch tail of `zulip_api_request`.  The external Zulip client
is modelled by the results it would return: `sendResult` for the send
performed on a new message, `updateResult` for the update performed on an
edit.  On the edit path the source builds the update dict with
`db_find_id(message_id)[0]`; when `db_find_id` returns `None`, the
subscript raises `TypeError` before any client call is made. -/
def zulip_api_request (cfg : Config) (db : DB) (now : Int)
    (sendResult updateResult : SendResult)
    (content0 : MsgCore) (content1 : Option MsgCore) (is_edit : Bool)
    (attachment_url : Option String) (mentions : List String) :
    Except PyError ZulipOutcome :=
  let request := buildRequest cfg content0 content1 attachment_url mentions
  let message_id := content0.message_id
  let sender_name := content0.from_user.first_name
  if !is_edit then
    let checked := check_response sendResult
    if checked.1 then
      Except.ok ⟨[ZulipCall.send request], db_add_id db message_id sendResult.id, checked.2⟩
    else
      Except.ok ⟨[ZulipCall.send request], db, checked.2⟩
  else
    if can_edit content0.dateEpoch now then
      match db_find_id db message_id with
      | none => Except.error PyError.typeError
      | some zid =>
          let checked := check_response updateResult
          Except.ok ⟨[ZulipCall.update zid request.content], db, checked.2⟩
    else
      Except.ok ⟨[], db,
        ["User " ++ sender_name ++ " tried to edit a message older than 60 minutes."
          ++ " Zulip does not allow such edits."]⟩

/-! ### Mention resolution and the Telegram handler process_message -/

/-- Lookup in the users-mapping dictionary (`_user in users_mapping`,
`users_mapping[key]`).  Dict keys are unique, so the first hit is the
value. -/
def mapGet (um : List (String × String)) (key : String) : Option String :=
  (um.find? (fun p => p.1 == key)).map (fun p => p.2)

/-- The Zulip mention token built for a resolved user:
`f"@_**{users_mapping[...]}**"`. -/
def mentionToken (zulipName : String) : String := "@_**" ++ zulipName ++ "**"

/-- Word characters for the pattern `[\w\d]+`; `\w` is modelled as
alphanumeric-or-underscore (the ASCII reading of a regex word
character). -/
def isWordChar (c : Char) : Bool := c.isAlphanum || c == '_'

/-- Leftmost match of `re.search(r'@([\w\d]+)', _text)`: scan for the
first `@` that is followed by at least one word character and capture the
maximal word-character run after it.  An `@` with no word character after
it is skipped and the scan resumes right after it, as the regex engine
does. -/
def searchMention : List Char → Option String
  | [] => none
  | '@' :: rest =>
      let w := rest.takeWhile isWordChar
      if w.isEmpty then searchMention rest else some ⟨w⟩
  | _ :: rest => searchMention rest

/-- First `@username` match in a string, as the mention branch computes
it. -/
def findFirstMention (s : String) : Option String := searchMention s.data

/-- One step of the mention loop, for one entity.  A `text_mention` entity
subscripts the dictionary with `entity.user.first_name` and raises
`KeyError` when the name is absent; a `mention` entity re-searches the
message's caption-or-text for the first `@username` match (raising
`TypeError` when both caption and text are `None`) and silently drops the
match when the username is not in the dictionary; any other entity type is
ignored. -/
def mentionStep (um : List (String × String)) (m : MsgCore)
    (acc : List String) (e : MessageEntity) : Except PyError (List String) :=
  match e.type with
  | EntityType.text_mention =>
      match mapGet um e.userFirstName with
      | some z => Except.ok (acc ++ [mentionToken z])
      | none => Except.error (PyError.keyError e.userFirstName)
  | EntityType.mention =>
      match (if pyTruthy m.caption then m.caption else m.text) with
      | none => Except.error PyError.typeError
      | some s =>
          match findFirstMention s with
          | some u =>
              match mapGet um u with
              | some z => Except.ok (acc ++ [mentionToken z])
              | none => Except.ok acc
          | none => Except.ok acc
  | EntityType.other => Except.ok acc

/-- The `for entity in message.entities` loop: entities are processed in
order, and an exception raised by a step aborts the loop. -/
def mentionLoop (um : List (String × String)) (m : MsgCore) :
    List String → List MessageEntity → Except PyError (List String)
  | acc, [] => Except.ok acc
  | acc, e :: rest =>
      match mentionStep um m acc e with
      | Except.error err => Except.error err
      | Except.ok acc2 => mentionLoop um m acc2 rest

/-- The mention resolution of `process_message`: the loop only runs when
both `message.entities` and `users_mapping` are truthy (non-empty). -/
def resolveMentions (um : List (String × String)) (m : MsgCore) :
    Except PyError (List String) :=
  if !m.entities.isEmpty && !um.isEmpty then
    mentionLoop um m [] m.entities
  else Except.ok []

/-- What one run of `process_message` did: Zulip client calls, final
database state, log lines, and the reply texts sent back to the sender on
Telegram. -/
structure ProcessOutcome where
  calls : List ZulipCall
  db : DB
  logs : List String
  replies : List String
deriving DecidableEq

/-- The message handler `process_message`.  The external pieces are
modelled as parameters: `sendResult` / `updateResult` are the Zulip client
results, and `getFileUrl` models `context.bot.get_file(file_id).file_path`
for the media branch. -/
def process_message (cfg : Config) (um : List (String × String)) (db : DB)
    (now : Int) (sendResult updateResult : SendResult)
    (getFileUrl : String → String) (upd : TgUpdate) :
    Except PyError ProcessOutcome :=
  let message := upd.message
  let user := message.from_user
  let is_edit := upd.edited_message
  let original_msg := upd.reply_to_message
  match resolveMentions um message with
  | Except.error e => Except.error e
  | Except.ok mentioned_users =>
  if pyTruthy message.text then
    match zulip_api_request cfg db now sendResult updateResult
      message original_msg is_edit none mentioned_users with
    | Except.error e => Except.error e
    | Except.ok r => Except.ok ⟨r.calls, r.db, r.logs, []⟩
  else
    let file_id : Option String :=
      if message.photo.isSome then message.photo
      else if message.document.isSome then message.document
      else if message.video.isSome then message.video
      else if message.video_note.isSome then message.video_note
      else if message.audio.isSome then message.audio
      else if message.voice.isSome then message.voice
      else none
    match file_id with
    | none =>
        Except.ok ⟨[], db,
          ["User " ++ user.first_name ++ " sent a message with an unsupported content"],
          ["Sorry " ++ user.first_name
            ++ ", I cannot forward a message with this content to Zulip 😞"]⟩
    | some fid =>
        match zulip_api_request cfg db now sendResult updateResult
          message original_msg is_edit (some (getFileUrl fid)) mentioned_users with
        | Except.error e => Except.error e
        | Except.ok r => Except.ok ⟨r.calls, r.db, r.logs, []⟩

/-! ### Concrete fixtures -/

/-- A fixed-topic configuration. -/
def cfgEx : Config := ⟨"general", "from telegram", false⟩

/-- A sender. -/
def userAlice : User := ⟨"Alice"⟩

/-- A timestamp. -/
def dtEx : LocalDT := ⟨2021, 5, 10, 14, 0⟩

/-- A plain text message. -/
def msgEx1 : MsgCore :=
  ⟨1, dtEx, 0, userAlice, some "hello", none, [], none, none, none, none, none, none⟩

/-- A successful client result carrying destination id 42. -/
def okResult : SendResult := ⟨"success", 42, "", ""⟩

/-! ### Remaining definitions used by the content claims -/

/-- The caption-or-text tail appended by the new-message branch after the
mention prefix. -/
def newTail (m : MsgCore) : String :=
  if pyTruthy m.caption then orEmpty m.caption
  else if pyTruthy m.text then orEmpty m.text
  else ""

/-- A message whose own text already contains the attachment literal. -/
def msgLinkText : MsgCore :=
  ⟨3, dtEx, 0, userAlice, some "x\n[Link to file](u)", none, [],
    none, none, none, none, none, none⟩

/-- A message with two username-style mention entities in its text. -/
def msgTwoMentions : MsgCore :=
  ⟨5, dtEx, 0, userAlice, some "hi @alice and @bob", none,
    [⟨EntityType.mention, ""⟩, ⟨EntityType.mention, ""⟩],
    none, none, none, none, none, none⟩

theorem digitChar_toNat {d : Nat} (h : d < 10) : (digitChar d).toNat = 48 + d := by
  interval_cases d <;> rfl

theorem parseDigits_append (l : List Char) (c : Char) :
    parseDigits (l ++ [c]) = parseDigits l * 10 + (c.toNat - 48) := by
  simp [parseDigits, List.foldl_append]

theorem parseDigits_natStrAux : ∀ (fuel n : Nat), n < 10 ^ fuel →
    parseDigits (natStrAux fuel n) = n := by
  intro fuel
  induction fuel with
  | zero =>
      intro n hn
      simp only [pow_zero, Nat.lt_one_iff] at hn
      subst hn
      rfl
  | succ fuel ih =>
      intro n hn
      by_cases h10 : n < 10
      · simp [natStrAux, h10, parseDigits, digitChar_toNat h10]
      · have hdiv : n / 10 < 10 ^ fuel := by
          have : n < 10 * 10 ^ fuel := by
            calc n < 10 ^ (fuel + 1) := hn
            _ = 10 * 10 ^ fuel := by ring
          exact Nat.div_lt_of_lt_mul this
        have hmod : n % 10 < 10 := Nat.mod_lt _ (by norm_num)
        simp only [natStrAux, h10, if_false]
        rw [parseDigits_append, ih _ hdiv, digitChar_toNat hmod]
        omega

theorem natStr_inj {a b : Nat} (h : natStr a = natStr b) : a = b := by
  have ha : a < 10 ^ (a + 1) := by
    calc a < 10 ^ a := Nat.lt_pow_self (by norm_num) a
    _ ≤ 10 ^ (a + 1) := Nat.pow_le_pow_right (by norm_num) (Nat.le_succ a)
  have hb : b < 10 ^ (b + 1) := by
    calc b < 10 ^ b := Nat.lt_pow_self (by norm_num) b
    _ ≤ 10 ^ (b + 1) := Nat.pow_le_pow_right (by norm_num) (Nat.le_succ b)
  have hdata : natStrAux (a + 1) a = natStrAux (b + 1) b := congrArg String.data h
  calc a = parseDigits (natStrAux (a + 1) a) := (parseDigits_natStrAux _ _ ha).symm
  _ = parseDigits (natStrAux (b + 1) b) := by rw [hdata]
  _ = b := parseDigits_natStrAux _ _ hb

theorem space_not_mem_natStrAux : ∀ (fuel n : Nat), ' ' ∉ natStrAux fuel n := by
  intro fuel
  induction fuel with
  | zero => intro n; simp [natStrAux]
  | succ fuel ih =>
      intro n
      by_cases h10 : n < 10
      · simp only [natStrAux, h10, if_true, List.mem_singleton]
        intro hc
        have := digitChar_toNat h10
        rw [← hc] at this
        have h32 : (' ' : Char).toNat = 32 := rfl
        omega
      · simp only [natStrAux, h10, if_false, List.mem_append, List.mem_singleton]
        rintro (hmem | hc)
        · exact ih _ hmem
        · have := digitChar_toNat (Nat.mod_lt n (show 0 < 10 by norm_num))
          rw [← hc] at this
          have h32 : (' ' : Char).toNat = 32 := rfl
          omega

theorem space_not_mem_natStr (n : Nat) : ' ' ∉ (natStr n).data :=
  space_not_mem_natStrAux _ _

theorem strData_append (s t : String) : (s ++ t).data = s.data ++ t.data := rfl

theorem strExt {s t : String} (h : s.data = t.data) : s = t := by
  cases s; cases t; exact congrArg String.mk h

theorem pad2_inj_lt32 : ∀ x < 32, ∀ y < 32, pad2 x = pad2 y → x = y := by decide

theorem space_not_mem_pad2 : ∀ x < 32, ' ' ∉ (pad2 x).data := by decide

theorem monthName_inj : ∀ x < 13, ∀ y < 13, 0 < x → 0 < y →
    monthName x = monthName y → x = y := by decide

theorem space_not_mem_monthName : ∀ x < 13, ' ' ∉ (monthName x).data := by decide

theorem append_space_inj : ∀ (a c b d : List Char), ' ' ∉ a → ' ' ∉ c →
    a ++ ' ' :: b = c ++ ' ' :: d → a = c ∧ b = d := by
  intro a
  induction a with
  | nil =>
      intro c b d _ hc heq
      cases c with
      | nil => simpa using heq
      | cons ch ctl =>
          simp only [List.nil_append, List.cons_append, List.cons.injEq] at heq
          exact absurd (heq.1 ▸ List.mem_cons_self ch ctl) hc
  | cons ah atl ih =>
      intro c b d ha hc heq
      cases c with
      | nil =>
          simp only [List.cons_append, List.nil_append, List.cons.injEq] at heq
          exact absurd (heq.1 ▸ List.mem_cons_self ah atl) ha
      | cons ch ctl =>
          simp only [List.cons_append, List.cons.injEq] at heq
          have ha' : ' ' ∉ atl := fun hm => ha (List.mem_cons_of_mem _ hm)
          have hc' : ' ' ∉ ctl := fun hm => hc (List.mem_cons_of_mem _ hm)
          obtain ⟨h1, h2⟩ := ih ctl b d ha' hc' heq.2
          exact ⟨by rw [heq.1, h1], h2⟩

theorem strftimeDate_data (d : LocalDT) :
    (strftimeDate d).data =
      (pad2 d.day).data ++ ' ' :: ((monthName d.month).data ++ ' ' :: (natStr d.year).data) := by
  simp [strftimeDate, strData_append]

theorem strftimeDate_eq_iff {d1 d2 : LocalDT} (h1 : validDate d1) (h2 : validDate d2) :
    strftimeDate d1 = strftimeDate d2 ↔ sameDate d1 d2 := by
  constructor
  · intro h
    have hdata := congrArg String.data h
    rw [strftimeDate_data, strftimeDate_data] at hdata
    obtain ⟨hd1, hd1', hm1, hm1'⟩ := h1
    obtain ⟨hd2, hd2', hm2, hm2'⟩ := h2
    have hs1 := space_not_mem_pad2 d1.day (by omega)
    have hs2 := space_not_mem_pad2 d2.day (by omega)
    obtain ⟨hday, hrest⟩ := append_space_inj _ _ _ _ hs1 hs2 hdata
    have hm1s := space_not_mem_monthName d1.month (by omega)
    have hm2s := space_not_mem_monthName d2.month (by omega)
    obtain ⟨hmon, hyear⟩ := append_space_inj _ _ _ _ hm1s hm2s hrest
    refine ⟨natStr_inj (strExt hyear), ?_, ?_⟩
    · exact monthName_inj d1.month (by omega) d2.month (by omega) (by omega) (by omega)
        (strExt hmon)
    · exact pad2_inj_lt32 d1.day (by omega) d2.day (by omega) (strExt hday)
  · rintro ⟨hy, hm, hd⟩
    unfold strftimeDate
    rw [hy, hm, hd]

/-! ### Store lemmas -/

theorem find?_append_none {α : Type} (p : α → Bool) {l1 : List α} (l2 : List α)
    (h : l1.find? p = none) : (l1 ++ l2).find? p = l2.find? p := by
  induction l1 with
  | nil => simp
  | cons a tl ih =>
      cases hpa : p a with
      | true =>
          rw [List.find?_cons_of_pos _ hpa] at h
          exact absurd h (by simp)
      | false =>
          rw [List.find?_cons_of_neg _ (by simp [hpa])] at h
          rw [List.cons_append, List.find?_cons_of_neg _ (by simp [hpa])]
          exact ih h

theorem db_find_id_none_iff {db : DB} {tid : Nat} :
    db_find_id db tid = none ↔ db.rows.find? (fun r => r.1 == tid) = none := by
  unfold db_find_id
  cases db.rows.find? (fun r => r.1 == tid) <;> simp

/-- C3 helper: the successful-insert shape of `db_add_id` on a fresh key. -/
theorem db_add_id_fresh {db : DB} {tid : Nat} (zid : Nat)
    (h : db.rows.find? (fun r => r.1 == tid) = none) :
    db_add_id db tid zid = ⟨db.rows ++ [(tid, zid)]⟩ := by
  unfold db_add_id
  rw [h]
  rfl

/-- C3: the identifier store insert is idempotent with first-write-wins:
inserting `(tid, d1)` and then `(tid, d2)` for a `tid` with no recorded
mapping leaves the lookup at `d1`, makes the second insert a successful
no-op, leaves exactly one row for `tid`, and a single insert never pushes
any key above one row. -/
theorem C3_insert_idempotent_first_write_wins (db : DB) (tid d1 d2 : Nat)
    (h : db_find_id db tid = none) :
    db_add_id (db_add_id db tid d1) tid d2 = db_add_id db tid d1 ∧
    db_find_id (db_add_id (db_add_id db tid d1) tid d2) tid = some d1 ∧
    rowCount (db_add_id (db_add_id db tid d1) tid d2) tid = 1 ∧
    (∀ (db0 : DB) (t z t0 : Nat), rowCount db0 t0 ≤ 1 →
      rowCount (db_add_id db0 t z) t0 ≤ 1) := by
  have hfind : db.rows.find? (fun r => r.1 == tid) = none := db_find_id_none_iff.mp h
  have h1 : db_add_id db tid d1 = ⟨db.rows ++ [(tid, d1)]⟩ := db_add_id_fresh d1 hfind
  have hfind1 : (db.rows ++ [(tid, d1)]).find? (fun r => r.1 == tid) = some (tid, d1) := by
    rw [find?_append_none _ _ hfind]
    simp [List.find?_cons_of_pos]
  have h2 : db_add_id (db_add_id db tid d1) tid d2 = db_add_id db tid d1 := by
    rw [h1]
    unfold db_add_id
    simp only [hfind1, Option.isSome_some, if_true]
  refine ⟨h2, ?_, ?_, ?_⟩
  · rw [h2, h1]
    unfold db_find_id
    simp only [hfind1, Option.map_some']
  · rw [h2, h1]
    unfold rowCount
    simp only [List.filter_append]
    have hnil : db.rows.filter (fun r => r.1 == tid) = [] := by
      rw [List.filter_eq_nil_iff]
      intro a ha
      exact List.find?_eq_none.mp hfind a ha
    rw [hnil]
    simp
  · intro db0 t z t0 hle
    unfold db_add_id
    cases hfd : (db0.rows.find? (fun r => r.1 == t)).isSome with
    | true => simpa [hfd] using hle
    | false =>
        rw [if_neg (by simp)]
        unfold rowCount at hle ⊢
        simp only [List.filter_append, List.length_append]
        cases heq : ((t, z).1 == t0) with
        | false => simpa [heq] using hle
        | true =>
            have ht : t = t0 := by simpa using heq
            have hnone : db0.rows.find? (fun r => r.1 == t) = none := by
              cases hft : db0.rows.find? (fun r => r.1 == t)
              · rfl
              · rw [hft] at hfd; simp at hfd
            have hnil : db0.rows.filter (fun r => r.1 == t0) = [] := by
              rw [List.filter_eq_nil_iff]
              intro a ha
              have := List.find?_eq_none.mp hnone a ha
              simpa [← ht] using this
            rw [hnil]
            simp [heq]

/-- C3 witness: inserting id 1 with destination 42 and then 99 into the
empty store keeps 42, is a no-op, and leaves one row. -/
theorem C3_witness :
    db_find_id (⟨[]⟩ : DB) 1 = none ∧
    db_add_id (db_add_id ⟨[]⟩ 1 42) 1 99 = db_add_id ⟨[]⟩ 1 42 ∧
    db_find_id (db_add_id (db_add_id ⟨[]⟩ 1 42) 1 99) 1 = some 42 ∧
    rowCount (db_add_id (db_add_id ⟨[]⟩ 1 42) 1 99) 1 = 1 := by
  have h := C3_insert_idempotent_first_write_wins ⟨[]⟩ 1 42 99 (by rfl)
  exact ⟨by rfl, h.1, h.2.1, h.2.2.1⟩

/-! ### Claims about the dispatch tail -/

/-- C4: on the new-message path the send call is always issued, and the
id mapping is written if and only if the send result is a confirmed
success; a failed send leaves the store untouched. -/
theorem C4_mapping_insert_iff_send_success (cfg : Config) (db : DB) (now : Int)
    (sendResult updateResult : SendResult) (content0 : MsgCore)
    (content1 : Option MsgCore) (attachment_url : Option String)
    (mentions : List String) :
    zulip_api_request cfg db now sendResult updateResult content0 content1 false
        attachment_url mentions =
      Except.ok
        ⟨[ZulipCall.send (buildRequest cfg content0 content1 attachment_url mentions)],
         if sendResult.result = "success" then
           db_add_id db content0.message_id sendResult.id
         else db,
         if sendResult.result = "success" then []
         else ["Zulip API returned " ++ sendResult.code ++ ": " ++ sendResult.msg]⟩ := by
  by_cases hs : sendResult.result = "success" <;>
    simp [zulip_api_request, check_response, hs]

/-- C5: the edit-window condition used on the edit path permits an edit
exactly when `now` is at most the original timestamp plus the 60 minute
window; the decision at the boundary is permissive and one second past it
is not. -/
theorem C5_edit_window_policy (t now : Int) :
    (can_edit t now = true ↔ now ≤ t + _60min_delta) ∧
    can_edit t (t + _60min_delta) = true ∧
    can_edit t (t + _60min_delta + 1) = false := by
  refine ⟨?_, ?_, ?_⟩ <;> simp [can_edit, _60min_delta]

/-- C1: an edit event, inside the 60 minute window, for a message id with
no recorded mapping makes the edit path raise `TypeError` (the source
subscripts the `None` returned by `db_find_id`); no warning is logged and
no client call is issued, where the specification asks for a logged
warning with the failure treated as NotFound. -/
theorem C1_edit_without_mapping_raises :
    zulip_api_request cfgEx ⟨[]⟩ 0 okResult okResult msgEx1 none true none [] =
      Except.error PyError.typeError := by
  rfl

/-- C6: a `text_mention` entity whose `first_name` is absent from the
users mapping makes the mention loop raise `KeyError` instead of silently
dropping the mention. -/
theorem C6_text_mention_unknown_user_raises :
    resolveMentions [("alice", "alice_zulip")]
        ⟨2, dtEx, 0, userAlice, some "hello Charlie", none,
          [⟨EntityType.text_mention, "Charlie"⟩], none, none, none, none, none, none⟩ =
      Except.error (PyError.keyError "Charlie") := by
  rfl

/-! ### Claims about the formatted content -/

/-- C7: the quoted-reply date field renders time-only exactly when the
replied-to message and the replying message share the same local calendar
date, and full date, comma, time otherwise. -/
theorem C7_reply_date_same_day (orig msg : LocalDT)
    (h1 : validDate orig) (h2 : validDate msg) :
    reply_date_print orig msg =
      if sameDate orig msg then strftimeTime orig
      else strftimeDate orig ++ ", " ++ strftimeTime orig := by
  unfold reply_date_print
  by_cases h : sameDate orig msg
  · rw [if_pos ((strftimeDate_eq_iff h1 h2).mpr h), if_pos h]
  · rw [if_neg fun hs => h ((strftimeDate_eq_iff h1 h2).mp hs), if_neg h]

/-- C7 witness: a same-day reply renders `14:00`; a next-day reply renders
`10 May 2021, 14:00`. -/
theorem C7_witness :
    reply_date_print ⟨2021, 5, 10, 14, 0⟩ ⟨2021, 5, 10, 23, 59⟩ =
      strftimeTime ⟨2021, 5, 10, 14, 0⟩ ∧
    reply_date_print ⟨2021, 5, 10, 14, 0⟩ ⟨2021, 5, 11, 0, 5⟩ =
      strftimeDate ⟨2021, 5, 10, 14, 0⟩ ++ ", " ++ strftimeTime ⟨2021, 5, 10, 14, 0⟩ := by
  constructor
  · have h := C7_reply_date_same_day ⟨2021, 5, 10, 14, 0⟩ ⟨2021, 5, 10, 23, 59⟩
      (by decide) (by decide)
    rw [if_pos (by decide)] at h
    exact h
  · have h := C7_reply_date_same_day ⟨2021, 5, 10, 14, 0⟩ ⟨2021, 5, 11, 0, 5⟩
      (by decide) (by decide)
    rw [if_neg (by decide)] at h
    exact h

theorem newText_eq (m : MsgCore) (t0 : String) : newText m t0 = t0 ++ newTail m := by
  unfold newText newTail
  by_cases hc : pyTruthy m.caption
  · simp [hc]
  · by_cases ht : pyTruthy m.text
    · simp [hc, ht]
    · simp [hc, ht]

/-- C2 counterexample: with one mention token the produced content starts
with the sender header, not with the mention token. -/
theorem C2_counterexample :
    (buildRequest cfgEx msgEx1 none none ["@_**bob**"]).content =
      "*Alice:*\n@_**bob** hello" ∧
    ("@_**bob** ".data).isPrefixOf
        ((buildRequest cfgEx msgEx1 none none ["@_**bob**"]).content).data = false := by
  constructor <;> rfl

/-- C2 amended: when the mention list is non-empty, the space-joined
mention tokens followed by one space are placed immediately before the
message text — after the `*sender:*` header on a new message, and after
the quoted block and the header on a reply — not at the start of the
content. -/
theorem C2_mention_prefix_amended (cfg : Config) (m : MsgCore) (orig : Option MsgCore)
    (att : Option String) (mentions : List String) (h : mentions ≠ []) :
    (buildRequest cfg m orig att mentions).content =
      (match orig with
       | none => "*" ++ m.from_user.first_name ++ ":*\n"
       | some o =>
           "> *" ++ o.from_user.first_name ++ " wrote ("
             ++ reply_date_print o.date m.date ++ "):*\n> " ++ captionOrTextStr o
             ++ "\n\n*" ++ m.from_user.first_name ++ ":*\n")
      ++ (String.intercalate " " mentions ++ " ")
      ++ (match orig with
          | none => newTail m
          | some _ => captionOrTextStr m)
      ++ attSuffix att := by
  have hne : mentions.isEmpty = false := by
    cases mentions with
    | nil => exact absurd rfl h
    | cons a l => rfl
  cases orig with
  | none =>
      apply strExt
      simp [buildRequest, joinMentions, hne, newText_eq, strData_append,
        List.append_assoc]
  | some o =>
      apply strExt
      simp [buildRequest, joinMentions, hne, strData_append, List.append_assoc]

/-- C2 amended witness: one mention token on a plain text message. -/
theorem C2_amended_witness :
    (buildRequest cfgEx msgEx1 none none ["@_**bob**"]).content =
      "*" ++ msgEx1.from_user.first_name ++ ":*\n"
        ++ (String.intercalate " " ["@_**bob**"] ++ " ")
        ++ newTail msgEx1 ++ attSuffix none :=
  C2_mention_prefix_amended cfgEx msgEx1 none none ["@_**bob**"] (by simp)

/-- C8 amended: the content built with an attachment URL is exactly the
content built without one followed by the attachment literal (so it ends
with the literal); without a URL nothing is appended, though the literal
can still occur inside sender-provided text. -/
theorem C8_attachment_suffix_amended (cfg : Config) (m : MsgCore)
    (orig : Option MsgCore) (mentions : List String) (u : String) :
    (buildRequest cfg m orig (some u) mentions).content =
      (buildRequest cfg m orig none mentions).content
        ++ ("\n[Link to file](" ++ u ++ ")") := by
  have h0 : ("" : String).data = [] := rfl
  apply strExt
  simp [buildRequest, attSuffix, strData_append, List.append_assoc, h0]

/-- C8 counterexample: with no attachment URL supplied, a message whose
own text contains the literal still yields a content carrying the literal
verbatim. -/
theorem C8_counterexample :
    (buildRequest cfgEx msgLinkText none none []).content =
      "*Alice:*\nx\n[Link to file](u)" ∧
    List.IsInfix ("\n[Link to file](u)").data
      ((buildRequest cfgEx msgLinkText none none []).content).data := by
  refine ⟨rfl, ⟨"*Alice:*\nx".data, [], ?_⟩⟩
  rfl

/-! ### Claims about process_message -/

/-- C9: a message with no text, no caption and none of the recognised
media kinds produces no Zulip client call and no store change; the sender
is notified on Telegram and a warning is logged. -/
theorem C9_unsupported_content (cfg : Config) (um : List (String × String))
    (db : DB) (now : Int) (sendResult updateResult : SendResult)
    (getFileUrl : String → String) (upd : TgUpdate)
    (htext : pyTruthy upd.message.text = false)
    (_hcap : pyTruthy upd.message.caption = false)
    (hent : upd.message.entities = [])
    (hp : upd.message.photo = none) (hd : upd.message.document = none)
    (hv : upd.message.video = none) (hvn : upd.message.video_note = none)
    (ha : upd.message.audio = none) (hvo : upd.message.voice = none) :
    process_message cfg um db now sendResult updateResult getFileUrl upd =
      Except.ok ⟨[], db,
        ["User " ++ upd.message.from_user.first_name
          ++ " sent a message with an unsupported content"],
        ["Sorry " ++ upd.message.from_user.first_name
          ++ ", I cannot forward a message with this content to Zulip 😞"]⟩ := by
  have hres : resolveMentions um upd.message = Except.ok [] := by
    simp [resolveMentions, hent]
  simp [process_message, hres, htext, hp, hd, hv, hvn, ha, hvo]

/-- C9 witness: a media-less, text-less message (a sticker, say) from
Alice. -/
theorem C9_witness :
    process_message cfgEx [] ⟨[]⟩ 0 okResult okResult (fun _ => "")
        ⟨false, ⟨4, dtEx, 0, userAlice, none, none, [],
          none, none, none, none, none, none⟩, none⟩ =
      Except.ok ⟨[], ⟨[]⟩,
        ["User Alice sent a message with an unsupported content"],
        ["Sorry Alice, I cannot forward a message with this content to Zulip 😞"]⟩ :=
  C9_unsupported_content cfgEx [] ⟨[]⟩ 0 okResult okResult (fun _ => "")
    ⟨false, ⟨4, dtEx, 0, userAlice, none, none, [],
      none, none, none, none, none, none⟩, none⟩
    rfl rfl rfl rfl rfl rfl rfl rfl rfl

/-- C10 helper: when every entity is a username-style mention and the
first `@`-match of the caption-or-text resolves to `z`, every loop step
appends the same token for `z`. -/
theorem mentionLoop_all_mention (um : List (String × String)) (m : MsgCore)
    {s u z : String}
    (hs : (if pyTruthy m.caption then m.caption else m.text) = some s)
    (hfind : findFirstMention s = some u)
    (hget : mapGet um u = some z) :
    ∀ (es : List MessageEntity) (acc : List String),
      (∀ e ∈ es, e.type = EntityType.mention) →
      mentionLoop um m acc es =
        Except.ok (acc ++ List.replicate es.length (mentionToken z)) := by
  intro es
  induction es with
  | nil => intro acc _; simp [mentionLoop]
  | cons e tl ih =>
      intro acc hall
      have he : e.type = EntityType.mention := hall e (List.mem_cons_self e tl)
      have htl : ∀ x ∈ tl, x.type = EntityType.mention :=
        fun x hx => hall x (List.mem_cons_of_mem _ hx)
      have hstep : mentionStep um m acc e = Except.ok (acc ++ [mentionToken z]) := by
        simp only [mentionStep, he, hs, hfind, hget]
      rw [mentionLoop, hstep]
      show mentionLoop um m (acc ++ [mentionToken z]) tl = _
      rw [ih (acc ++ [mentionToken z]) htl]
      simp [List.replicate_succ]

/-- C10: when every entity of a message is a username-style mention and
the first `@username` occurrence of its caption-or-text resolves through
the users mapping to `z`, the mention loop yields one token per entity,
every one of them the token derived from that same first match, of the
exact form `@_**z**`. -/
theorem C10_mention_entities_use_first_match (um : List (String × String))
    (m : MsgCore) (s u z : String)
    (hall : ∀ e ∈ m.entities, e.type = EntityType.mention)
    (hs : (if pyTruthy m.caption then m.caption else m.text) = some s)
    (hfind : findFirstMention s = some u)
    (hget : mapGet um u = some z) :
    resolveMentions um m =
      Except.ok (List.replicate m.entities.length (mentionToken z)) ∧
    mentionToken z = "@_**" ++ z ++ "**" := by
  refine ⟨?_, rfl⟩
  have hum : um ≠ [] := by
    intro hcon
    rw [hcon] at hget
    simp [mapGet] at hget
  have humf : um.isEmpty = false := by
    cases um with
    | nil => exact absurd rfl hum
    | cons a l => rfl
  unfold resolveMentions
  cases hent : m.entities with
  | nil => simp [hent]
  | cons e tl =>
      rw [hent] at hall
      simp only [humf, List.isEmpty_cons, Bool.not_false, Bool.and_self, if_true]
      rw [mentionLoop_all_mention um m hs hfind hget (e :: tl) [] hall]
      simp

/-- C10 witness: two mention entities over the text
`hi @alice and @bob`, with only `alice` in the users mapping, yield the
token for `alice` twice. -/
theorem C10_witness :
    resolveMentions [("alice", "alice_zulip")] msgTwoMentions =
      Except.ok ["@_**alice_zulip**", "@_**alice_zulip**"] :=
  (C10_mention_entities_use_first_match [("alice", "alice_zulip")] msgTwoMentions
    "hi @alice and @bob" "alice" "alice_zulip"
    (by decide) rfl rfl rfl).1

end ZulipBot
